import Mathlib

/-!
Verification of the deployment endpoint in src/api/deploy.js.

The file embeds, as executable Lean definitions, the two cores of the
handler: the per-client quota/cooldown state machine (getQuotaInfo, the
admission checks and the charge paths) and the upload processor (the
single-file and archive branches together with the isSafeFile safety
filter).  External collaborators (the ZIP decoder, the deployment
provider's HTTP API, the environment token) enter as oracle inputs: the
decoded archive is a given list of entries, the provider call's result is
a given outcome value, and the token's presence is a given flag.
Timestamps are integer milliseconds and calendar dates are the strings
produced by Date.toDateString(); within one request every Date.now() call
is modelled by the single value carried in the request context.
-/

namespace Deploy

/-- JS String.prototype.toLowerCase, restricted to the ASCII mapping that
Char.toLower performs; the paths and names in the claims are ASCII. -/
def jsToLower (s : String) : String :=
  ⟨s.data.map Char.toLower⟩

/-- JS String.prototype.endsWith: the last suf.length characters of s
equal suf (false whenever s is shorter than suf). -/
def jsEndsWith (s suf : String) : Bool :=
  s.data.reverse.take suf.data.length == suf.data.reverse

/-- JS String.prototype.includes: sub occurs contiguously inside s. -/
def jsIncludes (s sub : String) : Bool :=
  decide (sub.data <:+: s.data)

/-- The basename.startsWith('.') test from isSafeFile. -/
def startsWithDot (s : String) : Bool :=
  match s.data with
  | [] => false
  | c :: _ => c == '.'

/-- Node path.posix.basename: the portion of the path after the last
separator, ignoring trailing separators. -/
def pathBasename (p : String) : String :=
  ⟨((p.data.reverse.dropWhile (fun c => c == '/')).takeWhile (fun c => c != '/')).reverse⟩

/-- Node path.posix.extname.  On the basename b it returns the substring
from the last dot to the end, except that it returns "" when b has no
dot, when the only dot of b is its first character (dotfiles such as
".htaccess" have no extension), and when b is exactly "..". -/
def extname (p : String) : String :=
  let b := (pathBasename p).data
  match b.reverse.findIdx? (fun c => c == '.') with
  | none => ""
  | some j =>
    if j + 1 = b.length then ""
    else if b = ['.', '.'] then ""
    else ⟨(b.reverse.take (j + 1)).reverse⟩

/-- The extension allow-list of isSafeFile (src/api/deploy.js lines 218-220). -/
def safeExtensions : List String :=
  [".html", ".htm", ".css", ".js", ".json", ".txt", ".md",
   ".jpg", ".jpeg", ".png", ".gif", ".svg", ".ico",
   ".woff", ".woff2", ".ttf", ".eot", ".webp"]

/-- isSafeFile (src/api/deploy.js lines 216-229). -/
def isSafeFile (filePath : String) : Bool :=
  let ext := jsToLower (extname filePath)
  if !(safeExtensions.contains ext) then false
  else if jsIncludes filePath ".." || jsIncludes filePath "//" then false
  else
    let basename := pathBasename filePath
    if startsWithDot basename && basename != ".htaccess" then false
    else true

/-- One entry of the decoded archive.  ZIP decoding is a black box, so an
entry carries its name, its directory flag, and the base64 rendering of
its decoded content (entry.getData().toString('base64')). -/
structure ZipEntry where
  entryName : String
  isDirectory : Bool
  dataB64 : String
deriving Repr, DecidableEq

/-- One file of the assembled deployable set (the objects pushed onto
`files` in the handler). -/
structure UploadFile where
  filepath : String
  content : String
  isBuffer : Bool
deriving Repr, DecidableEq

/-- Result of the file-processing block (src/api/deploy.js lines 57-90). -/
inductive ProcessResult where
  | ok (files : List UploadFile)
  | errZipNoIndex
  | errUnsupported
deriving Repr, DecidableEq

/-- The file-processing block (src/api/deploy.js lines 57-90): the
archive branch filters non-directory entries through isSafeFile and then
requires a surviving index.html; the single-file branch passes the
payload through verbatim; any other file name is unsupported. -/
def processFiles (fileData fileName : String) (entries : List ZipEntry) : ProcessResult :=
  if jsEndsWith (jsToLower fileName) ".zip" then
    let files := (entries.filter (fun e => !e.isDirectory && isSafeFile e.entryName)).map
      (fun e => { filepath := e.entryName, content := e.dataB64, isBuffer := false })
    if files.any (fun f => jsToLower f.filepath == "index.html") then ProcessResult.ok files
    else ProcessResult.errZipNoIndex
  else if jsEndsWith (jsToLower fileName) ".html" || jsEndsWith (jsToLower fileName) ".htm" then
    ProcessResult.ok [{ filepath := "index.html", content := fileData, isBuffer := false }]
  else ProcessResult.errUnsupported

/-- One client's quota record (the values stored in deploymentData). -/
structure QuotaRecord where
  remaining : Int
  lastReset : String
  lastDeployment : Option Int
  cooldownUntil : Int
deriving Repr, DecidableEq

/-- The sweep predicate of getQuotaInfo (src/api/deploy.js lines 202-207):
a record is kept unless now - (lastDeployment || now) exceeds 24 hours.
JS || treats both null and 0 as falsy, hence the 0 case. -/
def cleanupKeeps (r : QuotaRecord) (now : Int) : Bool :=
  let last : Int :=
    match r.lastDeployment with
    | none => now
    | some t => if t = 0 then now else t
  !(decide (now - last > 24 * 60 * 60 * 1000))

/-- getQuotaInfo (src/api/deploy.js lines 182-210), projected to one
client: create the record on first sight, reset it when the stored
lastReset differs from today, sweep it when it is stale, and return the
(possibly created or reset) record.  The first component is the record
the handler goes on to use; the second is this client's slot of the
store after the call. -/
def getQuotaInfo (st : Option QuotaRecord) (today : String) (now : Int) :
    QuotaRecord × Option QuotaRecord :=
  let data0 :=
    match st with
    | none => { remaining := 50, lastReset := today, lastDeployment := none, cooldownUntil := 0 : QuotaRecord }
    | some r => r
  let data :=
    if data0.lastReset != today then
      { data0 with remaining := 50, lastReset := today, cooldownUntil := 0 }
    else data0
  (data, if cleanupKeeps data now then some data else none)

/-- Math.ceil((cooldownUntil - now) / 1000) on integer milliseconds. -/
def ceilSec (ms : Int) : Int :=
  -((-ms).fdiv 1000)

/-- The error payload of a failed provider call
(deployError.response?.data?.error), each field possibly absent. -/
structure VercelError where
  code : Option String
  message : Option String
deriving Repr, DecidableEq

/-- The name-collision test of the catch block (src/api/deploy.js lines
150-151): code equals name_already_exists, or the message lowercased
contains "already exists" (optional chaining makes an absent message
falsy). -/
def isNameExistsError (e : VercelError) : Bool :=
  e.code == some "name_already_exists" ||
  (match e.message with
   | none => false
   | some m => jsIncludes (jsToLower m) "already exists")

/-- The 500-branch message (src/api/deploy.js line 163): the provider
message when present and truthy, else the generic fallback. -/
def vercelFailMsg (e : VercelError) : String :=
  match e.message with
  | none => "Deployment gagal"
  | some m => if m == "" then "Deployment gagal" else m

/-- Result of the axios call to the deployment provider, as an oracle. -/
inductive DeployOutcome where
  | success
  | failure (err : VercelError)
deriving Repr, DecidableEq

/-- The JSON response: status code plus the body fields the handler
emits.  The url and deploymentId fields of the success body are derived
from the black-box provider payload and are not modelled. -/
structure Response where
  status : Nat
  error : Option String
  cooldown : Option Bool
  remainingSeconds : Option Int
  remainingQuota : Option Int
  success : Option Bool
deriving Repr, DecidableEq

/-- The POST body fields; absent fields are modelled as "", which is
exactly what the handler's truthiness checks test for. -/
structure RequestIn where
  name : String
  fileData : String
  fileName : String
deriving Repr, DecidableEq

/-- Ambient inputs of one request: the clock, the decoded archive, the
provider outcome and the token flag. -/
structure Ctx where
  today : String
  now : Int
  entries : List ZipEntry
  outcome : DeployOutcome
  tokenPresent : Bool
deriving Repr, DecidableEq

/-- The anchored name pattern (src/api/deploy.js line 37): one or more of
lowercase ascii letters, digits, hyphen. -/
def validName (s : String) : Bool :=
  !s.data.isEmpty && s.data.all (fun c =>
    (decide ('a' ≤ c) && decide (c ≤ 'z')) ||
    (decide ('0' ≤ c) && decide (c ≤ '9')) || c == '-')

/-- The POST handler (src/api/deploy.js lines 18-165), projected to one
client: quota-check sentinel, field and name validation, admission
(cooldown then quota), file processing, token check, then the charge
determined by the provider outcome.  Returns the response and the
client's store slot after the request. -/
def handler (st : Option QuotaRecord) (c : Ctx) (r : RequestIn) :
    Response × Option QuotaRecord :=
  if r.name == "quota-check" then
    let q := (getQuotaInfo st c.today c.now).1
    let st1 := (getQuotaInfo st c.today c.now).2
    if q.cooldownUntil > c.now then
      ({ status := 200, error := none, cooldown := some true,
         remainingSeconds := some (ceilSec (q.cooldownUntil - c.now)),
         remainingQuota := some q.remaining, success := none }, st1)
    else
      ({ status := 200, error := none, cooldown := none, remainingSeconds := none,
         remainingQuota := some q.remaining, success := none }, st1)
  else if r.name == "" || r.fileData == "" || r.fileName == "" then
    ({ status := 400, error := some "Data tidak lengkap", cooldown := none,
       remainingSeconds := none, remainingQuota := none, success := none }, st)
  else if !validName r.name then
    ({ status := 400, error := some "Nama hanya huruf kecil, angka, tanda hubung",
       cooldown := none, remainingSeconds := none, remainingQuota := none, success := none }, st)
  else
    let q := (getQuotaInfo st c.today c.now).1
    let st1 := (getQuotaInfo st c.today c.now).2
    if q.cooldownUntil > c.now then
      ({ status := 429, error := some "Cooldown aktif", cooldown := some true,
         remainingSeconds := some (ceilSec (q.cooldownUntil - c.now)),
         remainingQuota := some q.remaining, success := none }, st1)
    else if q.remaining ≤ 0 then
      ({ status := 429, error := some "Quota habis", cooldown := none,
         remainingSeconds := none, remainingQuota := some 0, success := none }, st1)
    else
      match processFiles r.fileData r.fileName c.entries with
      | ProcessResult.errZipNoIndex =>
          ({ status := 400, error := some "ZIP harus ada index.html", cooldown := none,
             remainingSeconds := none, remainingQuota := none, success := none }, st1)
      | ProcessResult.errUnsupported =>
          ({ status := 400, error := some "Hanya file .html/.htm atau .zip", cooldown := none,
             remainingSeconds := none, remainingQuota := none, success := none }, st1)
      | ProcessResult.ok _ =>
          if !c.tokenPresent then
            ({ status := 500, error := some "Token Vercel tidak ditemukan", cooldown := none,
               remainingSeconds := none, remainingQuota := none, success := none }, st1)
          else
            match c.outcome with
            | DeployOutcome.success =>
                let q2 := { q with
                  remaining := q.remaining - 1
                  lastDeployment := some c.now
                  cooldownUntil := c.now + 5 * 60 * 1000 }
                ({ status := 200, error := none, cooldown := none, remainingSeconds := none,
                   remainingQuota := some q2.remaining, success := some true }, some q2)
            | DeployOutcome.failure e =>
                if isNameExistsError e then
                  let q2 := { q with remaining := q.remaining - 1 }
                  ({ status := 400, error := some "Nama sudah digunakan, coba nama lain",
                     cooldown := none, remainingSeconds := none,
                     remainingQuota := some q2.remaining, success := none }, some q2)
                else
                  ({ status := 500, error := some (vercelFailMsg e), cooldown := none,
                     remainingSeconds := none, remainingQuota := none, success := none }, st1)

/-- The store effect of one request. -/
def applyReq (st : Option QuotaRecord) (p : Ctx × RequestIn) : Option QuotaRecord :=
  (handler st p.1 p.2).2

/-- The store after a sequence of requests. -/
def runReqs (st : Option QuotaRecord) (ps : List (Ctx × RequestIn)) : Option QuotaRecord :=
  ps.foldl applyReq st

/-- The quota invariant on one client's store slot. -/
def quotaOk : Option QuotaRecord → Bool
  | none => true
  | some r => decide (0 ≤ r.remaining) && decide (r.remaining ≤ 50)

/-- The quota-check request body (name carries the sentinel; the other
fields are ignored on that path). -/
def quotaCheckReq : RequestIn :=
  { name := "quota-check", fileData := "", fileName := "" }

/-- The store after a sequence of quota-check requests at the given
times, all on the same calendar date. -/
def runQuotaChecks (st : Option QuotaRecord) (today : String) (ts : List Int) :
    Option QuotaRecord :=
  ts.foldl (fun s t =>
    (handler s { today := today, now := t, entries := [], outcome := DeployOutcome.success,
                 tokenPresent := true } quotaCheckReq).2) st

/-! ## Helper lemmas -/

/-- A string whose lowercase form ends in ".html" or ".htm" cannot also
end in ".zip": the two .zip-length tails of those suffixes differ. -/
lemma endsWith_excludes_zip {s : String}
    (h : jsEndsWith s ".html" = true ∨ jsEndsWith s ".htm" = true) :
    jsEndsWith s ".zip" = false := by
  unfold jsEndsWith at h ⊢
  have e4 : (".zip" : String).data.length = 4 := by decide
  rw [e4]
  rcases h with h | h
  · have h' : s.data.reverse.take ((".html" : String).data.length) = (".html" : String).data.reverse :=
      beq_iff_eq.mp h
    have e5 : (".html" : String).data.length = 5 := by decide
    rw [e5] at h'
    have htt : (s.data.reverse.take 5).take 4 = s.data.reverse.take 4 := by
      rw [List.take_take]
      norm_num
    rw [← htt, h']
    decide
  · have h' : s.data.reverse.take ((".htm" : String).data.length) = (".htm" : String).data.reverse :=
      beq_iff_eq.mp h
    have e4' : (".htm" : String).data.length = 4 := by decide
    rw [e4'] at h'
    rw [h']
    decide

/-- The second component of getQuotaInfo, spelled out. -/
lemma getQuotaInfo_snd (st : Option QuotaRecord) (today : String) (now : Int) :
    (getQuotaInfo st today now).2 =
      if cleanupKeeps (getQuotaInfo st today now).1 now
      then some (getQuotaInfo st today now).1 else none := rfl

/-- The looked-up record's remaining is within [0, 50] whenever the
store slot satisfies the invariant: creation and reset both give 50,
and otherwise the stored value is returned. -/
lemma getQuotaInfo_remaining_bounds (st : Option QuotaRecord) (today : String) (now : Int)
    (h : quotaOk st = true) :
    0 ≤ (getQuotaInfo st today now).1.remaining ∧
    (getQuotaInfo st today now).1.remaining ≤ 50 := by
  unfold getQuotaInfo
  cases st with
  | none => simp
  | some r =>
    simp only [quotaOk, Bool.and_eq_true, decide_eq_true_eq] at h
    by_cases hd : (r.lastReset != today) = true
    · simp [hd]
    · simp only [Bool.not_eq_true] at hd
      simp only [hd]
      simpa using h

/-- The store slot left by a lookup satisfies the invariant. -/
lemma getQuotaInfo_store_ok (st : Option QuotaRecord) (today : String) (now : Int)
    (h : quotaOk st = true) :
    quotaOk (getQuotaInfo st today now).2 = true := by
  obtain ⟨hb1, hb2⟩ := getQuotaInfo_remaining_bounds st today now h
  rw [getQuotaInfo_snd]
  by_cases hk : cleanupKeeps (getQuotaInfo st today now).1 now = true
  · simp only [hk, if_true, quotaOk, Bool.and_eq_true, decide_eq_true_eq]
    omega
  · simp only [Bool.not_eq_true] at hk
    simp [hk, quotaOk]

/-- One request preserves the quota invariant on the store slot: every
branch of the handler leaves the slot as it was, as the lookup left it,
or as a charge of an admitted record, and an admitted record has
remaining at least 1. -/
lemma applyReq_quotaOk (st : Option QuotaRecord) (p : Ctx × RequestIn)
    (h : quotaOk st = true) : quotaOk (applyReq st p) = true := by
  obtain ⟨c, r⟩ := p
  obtain ⟨hb1, hb2⟩ := getQuotaInfo_remaining_bounds st c.today c.now h
  have hs := getQuotaInfo_store_ok st c.today c.now h
  unfold applyReq handler
  dsimp only
  repeat' split
  all_goals first
    | exact hs
    | exact h
    | (simp only [quotaOk, Bool.and_eq_true, decide_eq_true_eq]; constructor <;> omega)

/-! ## Claims -/

/-- C1: the spec says isSafeFile accepts an entry whose base name is
exactly ".htaccess".  The code rejects it: path.extname(".htaccess") is
"", which is not in the extension allow-list, so the function returns
false before the dotfile exception on line 226 is ever consulted.  This
evaluates the code at the failing input. -/
theorem htaccess_rejected_by_filter : isSafeFile ".htaccess" = false := by decide

/-- C6: for every admitted upload whose file name ends
(case-insensitively) in ".html" or ".htm", the produced file set is
exactly one entry with filepath "index.html" whose content is the
fileData payload verbatim. -/
theorem single_file_branch_verbatim (fileData fileName : String) (entries : List ZipEntry)
    (h : jsEndsWith (jsToLower fileName) ".html" = true ∨
         jsEndsWith (jsToLower fileName) ".htm" = true) :
    processFiles fileData fileName entries =
      ProcessResult.ok [{ filepath := "index.html", content := fileData, isBuffer := false }] := by
  have hz := endsWith_excludes_zip h
  unfold processFiles
  rw [hz]
  rcases h with h | h <;> simp [h]

/-- Witness for C6 at fileName "page.htm". -/
theorem single_file_branch_verbatim_witness :
    (jsEndsWith (jsToLower "page.htm") ".html" = true ∨
     jsEndsWith (jsToLower "page.htm") ".htm" = true) ∧
    processFiles "PAYLOAD" "page.htm" [] =
      ProcessResult.ok [{ filepath := "index.html", content := "PAYLOAD", isBuffer := false }] :=
  ⟨Or.inr (by decide), single_file_branch_verbatim "PAYLOAD" "page.htm" [] (Or.inr (by decide))⟩

/-- C7: an archive whose non-directory entries are index.html, a.exe and
../../etc/passwd yields exactly the file set [index.html]; the other two
entries are dropped by the safety filter and no error is raised. -/
theorem archive_filter_example (fileData d1 d2 d3 : String) :
    processFiles fileData "site.zip"
      [{ entryName := "index.html", isDirectory := false, dataB64 := d1 },
       { entryName := "a.exe", isDirectory := false, dataB64 := d2 },
       { entryName := "../../etc/passwd", isDirectory := false, dataB64 := d3 }] =
      ProcessResult.ok [{ filepath := "index.html", content := d1, isBuffer := false }] := by
  rfl

/-- C8: a lookup on a record whose stored lastReset differs from today
resets remaining to 50, stamps lastReset with today and clears the
cooldown; a lookup on any record whose lastReset already equals today
returns it unchanged, so the reset happens only on the first lookup
after the date changes. -/
theorem rollover_reset_once (r r2 : QuotaRecord) (today : String) (now now2 : Int)
    (h : (r.lastReset == today) = false) (h2 : r2.lastReset = today) :
    ((getQuotaInfo (some r) today now).1.remaining = 50 ∧
     (getQuotaInfo (some r) today now).1.lastReset = today ∧
     (getQuotaInfo (some r) today now).1.cooldownUntil = 0) ∧
    (getQuotaInfo (some r2) today now2).1 = r2 := by
  unfold getQuotaInfo
  constructor
  · simp [bne, h]
  · simp [bne, h2]

/-- Witness for C8 on a Monday record seen on Tuesday. -/
theorem rollover_reset_once_witness :
    (((QuotaRecord.mk 7 "Mon" none 999).lastReset == "Tue") = false ∧
     (QuotaRecord.mk 13 "Tue" none 0).lastReset = "Tue") ∧
    ((getQuotaInfo (some (QuotaRecord.mk 7 "Mon" none 999)) "Tue" 5).1.remaining = 50 ∧
     (getQuotaInfo (some (QuotaRecord.mk 7 "Mon" none 999)) "Tue" 5).1.lastReset = "Tue" ∧
     (getQuotaInfo (some (QuotaRecord.mk 7 "Mon" none 999)) "Tue" 5).1.cooldownUntil = 0) ∧
    (getQuotaInfo (some (QuotaRecord.mk 13 "Tue" none 0)) "Tue" 6).1 =
      QuotaRecord.mk 13 "Tue" none 0 :=
  ⟨⟨by decide, by decide⟩,
   rollover_reset_once (QuotaRecord.mk 7 "Mon" none 999) (QuotaRecord.mk 13 "Tue" none 0)
     "Tue" 5 6 (by decide) (by decide)⟩

/-- C10: every path containing the two-character substring ".." anywhere
is rejected by isSafeFile, even when it has an allow-listed extension
and no parent-directory path segment. -/
theorem dotdot_always_rejected (p : String) (h : (".." : String).data <:+: p.data) :
    isSafeFile p = false := by
  have hinc : jsIncludes p ".." = true := by
    unfold jsIncludes
    exact decide_eq_true h
  unfold isSafeFile
  rw [hinc]
  simp

/-- Witness for C10 at the allow-listed-extension path "a..b.css". -/
theorem dotdot_always_rejected_witness :
    ((".." : String).data <:+: ("a..b.css" : String).data) ∧ isSafeFile "a..b.css" = false :=
  ⟨by decide, dotdot_always_rejected "a..b.css" (by decide)⟩

/-- C3: a valid deployment request (not the quota-check sentinel, all
fields present, name well-formed) from a client whose looked-up record
has remaining = 0 is rejected with status 429 and remainingQuota 0,
whether or not a cooldown is active: the cooldown branch reports
remainingQuota = remaining = 0 and the exhausted branch reports the
literal 0. -/
theorem exhausted_quota_rejected (st : Option QuotaRecord) (c : Ctx) (r : RequestIn)
    (h0 : (r.name == "quota-check") = false)
    (h1 : (r.name == "") = false) (h2 : (r.fileData == "") = false)
    (h3 : (r.fileName == "") = false) (h4 : validName r.name = true)
    (h5 : (getQuotaInfo st c.today c.now).1.remaining = 0) :
    (handler st c r).1.status = 429 ∧ (handler st c r).1.remainingQuota = some 0 := by
  unfold handler
  simp only [h0, h1, h2, h3, h4]
  by_cases hcd : (getQuotaInfo st c.today c.now).1.cooldownUntil > c.now
  · simp [hcd, h5]
  · simp [hcd, h5]

/-- Witness for C3: remaining 0 with an active cooldown still yields 429
and remainingQuota 0. -/
theorem exhausted_quota_rejected_witness :
    (getQuotaInfo (some (QuotaRecord.mk 0 "Tue" none 5000)) "Tue" 1000).1.remaining = 0 ∧
    (handler (some (QuotaRecord.mk 0 "Tue" none 5000))
       (Ctx.mk "Tue" 1000 [] DeployOutcome.success true)
       (RequestIn.mk "mysite" "PAYLOAD" "index.html")).1.status = 429 ∧
    (handler (some (QuotaRecord.mk 0 "Tue" none 5000))
       (Ctx.mk "Tue" 1000 [] DeployOutcome.success true)
       (RequestIn.mk "mysite" "PAYLOAD" "index.html")).1.remainingQuota = some 0 :=
  ⟨by decide,
   (exhausted_quota_rejected (some (QuotaRecord.mk 0 "Tue" none 5000))
     (Ctx.mk "Tue" 1000 [] DeployOutcome.success true)
     (RequestIn.mk "mysite" "PAYLOAD" "index.html")
     (by decide) (by decide) (by decide) (by decide) (by decide) (by decide)).1,
   (exhausted_quota_rejected (some (QuotaRecord.mk 0 "Tue" none 5000))
     (Ctx.mk "Tue" 1000 [] DeployOutcome.success true)
     (RequestIn.mk "mysite" "PAYLOAD" "index.html")
     (by decide) (by decide) (by decide) (by decide) (by decide) (by decide)).2⟩

/-- C4: an admitted request (valid, past cooldown and quota admission,
files produced, token present) whose provider call fails with a
name-collision error (code name_already_exists or a message containing
"already exists") yields status 400, a stored record whose remaining is
exactly one less than the consulted record's, and an unmodified
cooldownUntil (and lastDeployment); the response reports the
post-charge quota. -/
theorem name_exists_charges_without_cooldown (st : Option QuotaRecord) (c : Ctx)
    (r : RequestIn) (e : VercelError) (files : List UploadFile)
    (h0 : (r.name == "quota-check") = false)
    (h1 : (r.name == "") = false) (h2 : (r.fileData == "") = false)
    (h3 : (r.fileName == "") = false) (h4 : validName r.name = true)
    (hcd : ¬ (getQuotaInfo st c.today c.now).1.cooldownUntil > c.now)
    (hq : ¬ (getQuotaInfo st c.today c.now).1.remaining ≤ 0)
    (hf : processFiles r.fileData r.fileName c.entries = ProcessResult.ok files)
    (ht : c.tokenPresent = true)
    (ho : c.outcome = DeployOutcome.failure e)
    (he : isNameExistsError e = true) :
    (handler st c r).1.status = 400 ∧
    (∃ q2, (handler st c r).2 = some q2 ∧
      q2.remaining = (getQuotaInfo st c.today c.now).1.remaining - 1 ∧
      q2.cooldownUntil = (getQuotaInfo st c.today c.now).1.cooldownUntil ∧
      q2.lastDeployment = (getQuotaInfo st c.today c.now).1.lastDeployment) ∧
    (handler st c r).1.remainingQuota =
      some ((getQuotaInfo st c.today c.now).1.remaining - 1) := by
  unfold handler
  simp only [h0, h1, h2, h3, h4, hf, ht, ho]
  simp [hcd, hq, he]

/-- Witness for C4: remaining 5 becomes 4 and cooldownUntil stays 0. -/
theorem name_exists_charges_without_cooldown_witness :
    (handler (some (QuotaRecord.mk 5 "Tue" none 0))
       (Ctx.mk "Tue" 1000 [] (DeployOutcome.failure (VercelError.mk (some "name_already_exists") none)) true)
       (RequestIn.mk "mysite" "PAYLOAD" "index.html")).1.status = 400 ∧
    (∃ q2, (handler (some (QuotaRecord.mk 5 "Tue" none 0))
       (Ctx.mk "Tue" 1000 [] (DeployOutcome.failure (VercelError.mk (some "name_already_exists") none)) true)
       (RequestIn.mk "mysite" "PAYLOAD" "index.html")).2 = some q2 ∧
      q2.remaining = (getQuotaInfo (some (QuotaRecord.mk 5 "Tue" none 0)) "Tue" 1000).1.remaining - 1 ∧
      q2.cooldownUntil = (getQuotaInfo (some (QuotaRecord.mk 5 "Tue" none 0)) "Tue" 1000).1.cooldownUntil ∧
      q2.lastDeployment = (getQuotaInfo (some (QuotaRecord.mk 5 "Tue" none 0)) "Tue" 1000).1.lastDeployment) ∧
    (handler (some (QuotaRecord.mk 5 "Tue" none 0))
       (Ctx.mk "Tue" 1000 [] (DeployOutcome.failure (VercelError.mk (some "name_already_exists") none)) true)
       (RequestIn.mk "mysite" "PAYLOAD" "index.html")).1.remainingQuota =
      some ((getQuotaInfo (some (QuotaRecord.mk 5 "Tue" none 0)) "Tue" 1000).1.remaining - 1) :=
  name_exists_charges_without_cooldown (some (QuotaRecord.mk 5 "Tue" none 0))
    (Ctx.mk "Tue" 1000 [] (DeployOutcome.failure (VercelError.mk (some "name_already_exists") none)) true)
    (RequestIn.mk "mysite" "PAYLOAD" "index.html")
    (VercelError.mk (some "name_already_exists") none)
    [UploadFile.mk "index.html" "PAYLOAD" false]
    (by decide) (by decide) (by decide) (by decide) (by decide)
    (by decide) (by decide) (by decide) (by decide) (by decide) (by decide)

/-- C5: an admitted request whose provider call succeeds at time now
stores a record with remaining decremented by exactly one,
lastDeployment = now and cooldownUntil = now + 5 minutes; nothing in
the branch conditions exempts the case where the decrement reaches 0,
so a fresh cooldown starts even then. -/
theorem success_charges_and_starts_cooldown (st : Option QuotaRecord) (c : Ctx)
    (r : RequestIn) (files : List UploadFile)
    (h0 : (r.name == "quota-check") = false)
    (h1 : (r.name == "") = false) (h2 : (r.fileData == "") = false)
    (h3 : (r.fileName == "") = false) (h4 : validName r.name = true)
    (hcd : ¬ (getQuotaInfo st c.today c.now).1.cooldownUntil > c.now)
    (hq : ¬ (getQuotaInfo st c.today c.now).1.remaining ≤ 0)
    (hf : processFiles r.fileData r.fileName c.entries = ProcessResult.ok files)
    (ht : c.tokenPresent = true)
    (ho : c.outcome = DeployOutcome.success) :
    (handler st c r).1.status = 200 ∧
    ∃ q2, (handler st c r).2 = some q2 ∧
      q2.remaining = (getQuotaInfo st c.today c.now).1.remaining - 1 ∧
      q2.lastDeployment = some c.now ∧
      q2.cooldownUntil = c.now + 5 * 60 * 1000 := by
  unfold handler
  simp only [h0, h1, h2, h3, h4, hf, ht, ho]
  simp [hcd, hq]

/-- Witness for C5 with remaining 1: the decrement reaches 0 and the
cooldown is still set to now + 5 minutes. -/
theorem success_charges_and_starts_cooldown_witness :
    (getQuotaInfo (some (QuotaRecord.mk 1 "Tue" none 0)) "Tue" 1000).1.remaining = 1 ∧
    ((handler (some (QuotaRecord.mk 1 "Tue" none 0))
        (Ctx.mk "Tue" 1000 [] DeployOutcome.success true)
        (RequestIn.mk "mysite" "PAYLOAD" "index.html")).1.status = 200 ∧
     ∃ q2, (handler (some (QuotaRecord.mk 1 "Tue" none 0))
        (Ctx.mk "Tue" 1000 [] DeployOutcome.success true)
        (RequestIn.mk "mysite" "PAYLOAD" "index.html")).2 = some q2 ∧
       q2.remaining = (getQuotaInfo (some (QuotaRecord.mk 1 "Tue" none 0)) "Tue" 1000).1.remaining - 1 ∧
       q2.lastDeployment = some 1000 ∧
       q2.cooldownUntil = 1000 + 5 * 60 * 1000) :=
  ⟨by decide,
   success_charges_and_starts_cooldown (some (QuotaRecord.mk 1 "Tue" none 0))
     (Ctx.mk "Tue" 1000 [] DeployOutcome.success true)
     (RequestIn.mk "mysite" "PAYLOAD" "index.html")
     [UploadFile.mk "index.html" "PAYLOAD" false]
     (by decide) (by decide) (by decide) (by decide) (by decide)
     (by decide) (by decide) (by decide) (by decide) (by decide)⟩

/-- C2: starting from an unseen client, every sequence of requests
(quota checks, rejected and admitted deployment attempts, rollover
resets, sweeps) leaves the client's remaining within [0, 50]: it is
never negative and never exceeds the daily limit. -/
theorem remaining_always_within_limit (ps : List (Ctx × RequestIn)) :
    quotaOk (runReqs none ps) = true := by
  suffices hgen : ∀ st, quotaOk st = true → quotaOk (runReqs st ps) = true from
    hgen none rfl
  induction ps with
  | nil => exact fun st h => h
  | cons p ps ih =>
      intro st h
      exact ih (applyReq st p) (applyReq_quotaOk st p h)

/-- C9 counterexample: two quota-check requests on the same calendar
date with no deployment between them do change remaining.  The record
has remaining 49 and a lastDeployment more than 24 hours before the
checks (reachable: a successful deployment one day, a rollover reset
and a charged name-collision the next day — that charge does not touch
lastDeployment).  The first check's sweep evicts the record and the
second check recreates it with remaining 50. -/
theorem quota_check_eviction_changes_remaining :
    (runQuotaChecks (some (QuotaRecord.mk 49 "Tue" (some 1) 0)) "Tue" [90000000]) = none ∧
    (runQuotaChecks (some (QuotaRecord.mk 49 "Tue" (some 1) 0)) "Tue"
        [90000000, 90000001]).map QuotaRecord.remaining = some 50 ∧
    (QuotaRecord.mk 49 "Tue" (some 1) 0).remaining = 49 := by
  refine ⟨by decide, by decide, by decide⟩

/-- C9 (amended): repeated quota-check requests on the same calendar
date as the record's lastReset, with no intervening deployment, leave
the record - hence its remaining - unchanged, provided the 24-hour
inactivity sweep keeps the record at each of those lookups. -/
theorem quota_check_idempotent_no_eviction (r : QuotaRecord) (today : String)
    (ts : List Int) (h1 : r.lastReset = today)
    (h2 : ∀ t ∈ ts, cleanupKeeps r t = true) :
    runQuotaChecks (some r) today ts = some r := by
  revert h2
  induction ts with
  | nil => exact fun _ => rfl
  | cons t ts ih =>
      intro h2
      have h2t : cleanupKeeps r t = true := h2 t (by simp)
      have h2r : ∀ u ∈ ts, cleanupKeeps r u = true := fun u hu => h2 u (by simp [hu])
      have hq1 : (getQuotaInfo (some r) today t).1 = r := by
        unfold getQuotaInfo
        simp [bne, h1]
      have hq2 : (getQuotaInfo (some r) today t).2 = some r := by
        rw [getQuotaInfo_snd, hq1, h2t]
        rfl
      have hstep : (handler (some r)
          { today := today, now := t, entries := [], outcome := DeployOutcome.success,
            tokenPresent := true } quotaCheckReq).2 = some r := by
        unfold handler
        simp only [quotaCheckReq]
        split
        · split
          · exact hq2
          · exact hq2
        · simp at *
      show runQuotaChecks ((handler (some r)
      { today := today, now := t, entries := [], outcome := DeployOutcome.success,
        tokenPresent := true } quotaCheckReq).2) today ts = some r
      rw [hstep]
      exact ih h2r

/-- Witness for the amended C9: three same-date quota checks on a fresh
record leave it untouched. -/
theorem quota_check_idempotent_no_eviction_witness :
    ((QuotaRecord.mk 42 "Tue" none 0).lastReset = "Tue" ∧
     ∀ t ∈ [(1000 : Int), 2000, 3000], cleanupKeeps (QuotaRecord.mk 42 "Tue" none 0) t = true) ∧
    runQuotaChecks (some (QuotaRecord.mk 42 "Tue" none 0)) "Tue" [1000, 2000, 3000] =
      some (QuotaRecord.mk 42 "Tue" none 0) :=
  ⟨⟨rfl, by decide⟩,
   quota_check_idempotent_no_eviction (QuotaRecord.mk 42 "Tue" none 0) "Tue"
     [1000, 2000, 3000] rfl (by decide)⟩

end Deploy
